import Mathlib

/-!
# Verification of the redditlang compiler driver (`src/main.rs`)

This development shallowly embeds the `Cook` (build) pipeline of the
redditlang compiler's `main.rs`:

* `build_libstd` models the standard-library fetch-and-build helper
  (`main.rs` lines 78-104): `fs::create_dir_all(..)?`,
  `clone_else_pull(..).expect(..)` (a panic on failure),
  `cargo build` via `.output()?` (only a spawn error propagates — the
  child's exit status is never inspected), `fs::rename(..)?`, and
  `cargo clean` via `.output()?`.
* `cook` models the `Commands::Cook` arm of `main` (lines 111-245) as a
  function from the outcomes of every fallible/external step (an `Env`)
  to the trace of pipeline events, whether the object file was written,
  and how the process terminated.
* `mainModule` models the LLVM module construction in `main`
  (lines 136-187): declaring the external `coitusinterruptus` routine
  with type `void(i8*)`, declaring `main : i32()`, appending its single
  `entry` block and positioning the builder there, lowering the AST
  (modelled as a sequence of code-generation actions that can emit
  instructions, create functions and blocks, and reposition the
  cursor), and unconditionally appending `ret i32 0` at the final
  cursor.
* Build-artifact paths (`build_dir`, `object_path`, `output_file`) model
  the path construction of lines 121-125, 205 and 233.

Environment outcomes (`Env`) are Booleans: `true` means the
corresponding external call or fallible operation succeeds.  Fields the
source never inspects (the exit status of `cargo build`, the exit status
of the spawned linker) are still part of `Env`, so that independence of
the compiler's behaviour from them is a provable statement.
-/

set_option synthInstance.maxSize 4000
set_option maxHeartbeats 1000000

namespace Redditlang

/-- `inkwell::OptimizationLevel` (the variants used by the crate). -/
inductive OptimizationLevel where
  | None
  | Less
  | Default
  | Aggressive
deriving DecidableEq

/-- `inkwell::targets::RelocMode` (the variants used by the crate). -/
inductive RelocMode where
  | Default
  | Static
  | PIC
  | DynamicNoPic
deriving DecidableEq

/-- `inkwell::targets::CodeModel` (the variants used by the crate). -/
inductive CodeModel where
  | Default
  | JITDefault
  | Small
  | Kernel
  | Medium
  | Large
deriving DecidableEq

/-- `const STDLIB_URL` from `main.rs` line 76. -/
def STDLIB_URL : String := "https://github.com/elijah629/redditlang-std"

/-- LLVM-style types appearing in the declared signatures. -/
inductive LType where
  | i8
  | i32
  | void
  | ptr (pointee : LType)
deriving DecidableEq

/-- A function signature: parameter types and return type. -/
structure FnSig where
  params : List LType
  ret : LType
deriving DecidableEq

/-- The type built for `coitusinterruptus` (`main.rs` lines 163-170):
`void_type().fn_type(&[i8_type().ptr_type(default)], false)`. -/
def println_type : FnSig := ⟨[.ptr .i8], .void⟩

/-- The type built for `main` (`main.rs` line 175):
`i32_type().fn_type(&[], false)`. -/
def main_type : FnSig := ⟨[], .i32⟩

/-- `cc::Build::opt_level` selection (`main.rs` line 228):
`if release { 3 } else { 0 }`. -/
def cc_opt_level (release : Bool) : Nat := if release then 3 else 0

/-- Observable pipeline events of one `Cook` invocation, in program
order.  An event records that the corresponding step was *invoked*
(whether or not it then succeeded). -/
inductive Event where
  | buildLibstd (url : String)
  | readSource
  | createBuildDir
  | parseSource
  | declareFunction (name : String) (sig : FnSig)
  | lowerAst
  | verifyModule
  | emitObject (opt : OptimizationLevel) (reloc : RelocMode) (model : CodeModel)
  | spawnLinker (ccOptLevel : Nat)
deriving DecidableEq

/-- The one `emitObject` event the driver can produce (`main.rs`
lines 201-219): `OptimizationLevel::Aggressive`, `RelocMode::PIC`,
`CodeModel::Default`. -/
def emitEv : Event := .emitObject .Aggressive .PIC .Default

/-- How the compiler process terminates: `exited code diagnostic` is
`std::process::exit(code)` where `diagnostic` records whether a
`log::error!`/rendered diagnostic immediately preceded it (normal
completion is `exited 0 false`); `panicked` is an unhandled panic
(`unwrap`/`expect`). -/
inductive Termination where
  | exited (code : Nat) (diagnostic : Bool)
  | panicked
deriving DecidableEq

/-- Outcomes of every fallible or external step of one `Cook`
invocation.  `true` = the operation succeeds.  `cargoBuildExitZero` and
`linkerExitZero` are the exit statuses of the external `cargo build`
and linker processes; the source never inspects either. -/
structure Env where
  projectFound : Bool
  createDirOk : Bool
  cloneOk : Bool
  cargoBuildSpawnOk : Bool
  cargoBuildExitZero : Bool
  renameOk : Bool
  cargoCleanSpawnOk : Bool
  readOk : Bool
  buildDirOk : Bool
  parseOk : Bool
  verifyOk : Bool
  targetMachineOk : Bool
  writeObjOk : Bool
  spawnOk : Bool
  linkerExitZero : Bool
deriving DecidableEq

/-- Result of `build_libstd`: it can panic (the `.expect` on
`clone_else_pull`), return `Err` (a `?` propagation), or succeed. -/
inductive LibstdResult where
  | panics
  | fails
  | succeeds
deriving DecidableEq, Fintype

/-- `build_libstd` (`main.rs` lines 78-104).  Note that the exit status
of `cargo build` (`env.cargoBuildExitZero`) is *not* consulted:
`.output()?` only propagates a spawn/IO error. -/
def build_libstd (env : Env) : LibstdResult :=
  if !env.createDirOk then .fails
  else if !env.cloneOk then .panics
  else if !env.cargoBuildSpawnOk then .fails
  else if !env.renameOk then .fails
  else if !env.cargoCleanSpawnOk then .fails
  else .succeeds

/-- Result of one `Cook` invocation: the trace of pipeline events,
whether the object file was written to disk, and the termination. -/
structure CookResult where
  events : List Event
  objectWritten : Bool
  termination : Termination
deriving DecidableEq

/-- Control flow of the `Commands::Cook` arm after `get_project`
and `build_libstd` are accounted for by their outcomes, in source
order (`main.rs` lines 111-245):
`get_project` (exit 1 with a diagnostic if no `walter.yml`),
`build_libstd` (exit 1 with a diagnostic on `Err`; its panic
propagates),
`fs::read_to_string(main.rl).unwrap()` (panic on failure),
`fs::create_dir_all(build_dir).unwrap()` (panic on failure),
`parse_file` (diagnostic + non-zero exit on parse error, see
`errors::error`),
declaring `coitusinterruptus` and `main`, lowering via `llvm`,
building the unconditional `ret i32 0`,
`module.verify()` (exit 1 with a diagnostic on failure),
`create_target_machine(..).unwrap()` (panic),
`write_to_file(.., Object, ..).unwrap()` (panic; the object file exists
on disk once this succeeds), and finally the linker `spawn().unwrap()`
(panic on spawn failure; the spawned process is never waited on and its
exit status is never read, so the driver then logs and exits 0). -/
def cookCore (release projectFound : Bool) (libstd : LibstdResult)
    (readOk buildDirOk parseOk verifyOk targetMachineOk writeObjOk
     spawnOk : Bool) : CookResult :=
  if !projectFound then ⟨[], false, .exited 1 true⟩
  else
    match libstd with
    | .panics => ⟨[.buildLibstd STDLIB_URL], false, .panicked⟩
    | .fails => ⟨[.buildLibstd STDLIB_URL], false, .exited 1 true⟩
    | .succeeds =>
      let ev1 : List Event := [.buildLibstd STDLIB_URL, .readSource]
      if !readOk then ⟨ev1, false, .panicked⟩
      else
        let ev2 := ev1 ++ [.createBuildDir]
        if !buildDirOk then ⟨ev2, false, .panicked⟩
        else
          let ev3 := ev2 ++ [.parseSource]
          if !parseOk then ⟨ev3, false, .exited 1 true⟩
          else
            let ev4 := ev3 ++
              [.declareFunction "coitusinterruptus" println_type,
               .declareFunction "main" main_type,
               .lowerAst, .verifyModule]
            if !verifyOk then ⟨ev4, false, .exited 1 true⟩
            else
              if !targetMachineOk then ⟨ev4, false, .panicked⟩
              else
                let ev5 := ev4 ++ [emitEv]
                if !writeObjOk then ⟨ev5, false, .panicked⟩
                else
                  let ev6 := ev5 ++ [.spawnLinker (cc_opt_level release)]
                  if !spawnOk then ⟨ev6, true, .panicked⟩
                  else ⟨ev6, true, .exited 0 false⟩

/-- The `Commands::Cook` arm of `main` (`main.rs` lines 111-245): the
driver's control flow `cookCore` applied to the outcome of
`build_libstd` and the outcomes of the remaining fallible steps. -/
def cook (release : Bool) (env : Env) : CookResult :=
  cookCore release env.projectFound (build_libstd env) env.readOk
    env.buildDirOk env.parseOk env.verifyOk env.targetMachineOk
    env.writeObjOk env.spawnOk

/-- `true` exactly on `emitObject` events. -/
def isEmit : Event → Bool
  | .emitObject _ _ _ => true
  | _ => false

/-- `true` exactly on `spawnLinker` events. -/
def isSpawn : Event → Bool
  | .spawnLinker _ => true
  | _ => false

/-- An environment in which every external step succeeds. -/
def envOk : Env := ⟨true, true, true, true, true, true, true, true,
  true, true, true, true, true, true, true⟩

/-! ## The LLVM module built by `main` (lines 136-187) -/

/-- IR instructions, as far as the driver observes them: the `ret i32 c`
terminator built by `build_return(Some(&i32_type().const_zero()))`, and
any other instruction (abstracted by a tag). -/
inductive Instr where
  | ret (value : Int)
  | other (tag : Nat)
deriving DecidableEq

/-- A function on the module: its name, its signature, and its basic
blocks (each a list of instructions in emission order).  An external
declaration (`add_function` never followed by `append_basic_block`)
has no blocks. -/
structure LFunction where
  name : String
  sig : FnSig
  blocks : List (List Instr)
deriving DecidableEq

/-- An LLVM module: `context.create_module("main")` plus the functions
added to it, in insertion order. -/
structure Module where
  modName : String
  functions : List LFunction
deriving DecidableEq

/-- `context.create_module(name)`. -/
def create_module (name : String) : Module := ⟨name, []⟩

/-- `module.add_function(name, ty, None)`: appends a body-less function
with the given signature. -/
def add_function (m : Module) (name : String) (sig : FnSig) : Module :=
  { m with functions := m.functions ++ [⟨name, sig, []⟩] }

/-- `context.append_basic_block(f, ..)`: appends a fresh empty basic
block to the named function. -/
def append_basic_block (m : Module) (fname : String) : Module :=
  { m with
    functions := m.functions.map fun f =>
      if f.name = fname then { f with blocks := f.blocks ++ [[]] } else f }

/-- Update the element of a list at index `n` (identity out of range). -/
def updateAt (l : List α) (n : Nat) (g : α → α) : List α :=
  match l, n with
  | [], _ => []
  | a :: rest, 0 => g a :: rest
  | a :: rest, n + 1 => a :: updateAt rest n g

/-- The number of basic blocks of the function at index `fIdx`
(0 when there is no such function). -/
def blocksCount (m : Module) (fIdx : Nat) : Nat :=
  ((m.functions[fIdx]?).map fun f => f.blocks.length).getD 0

/-- `builder.build_*`: emit one instruction into the block the builder
cursor points at (function index `fIdx`, block index `bIdx`). -/
def emitAt (m : Module) (fIdx bIdx : Nat) (i : Instr) : Module :=
  { m with
    functions := updateAt m.functions fIdx fun f =>
      { f with blocks := updateAt f.blocks bIdx fun b => b ++ [i] } }

/-- Append a fresh empty basic block to the function at index `fIdx`. -/
def addBlockAt (m : Module) (fIdx : Nat) : Module :=
  { m with
    functions := updateAt m.functions fIdx fun f =>
      { f with blocks := f.blocks ++ [[]] } }

/-- Modelled from the spec: the actions the absent `llvm` lowering
module (`crate::llvm::llvm`) can perform during its single depth-first
traversal, per spec §4.3: emit an IR instruction at the cursor
(statements/expressions), create a function with its entry block and
move the cursor there (`FunctionDecl`), create a fresh block in the
cursor's function and move the cursor to it (`If`/`While` block
creation), and reposition the cursor to an existing block (`If`/`While`
wiring, "the cursor temporarily repositioned"). -/
inductive GenAction where
  | emit (i : Instr)
  | declFunction (name : String) (sig : FnSig)
  | newBlock
  | setCursor (fIdx bIdx : Nat)
deriving DecidableEq

/-- The code-generation context during lowering: the module under
construction plus the builder cursor (function index, block index). -/
structure GenState where
  module : Module
  curFn : Nat
  curBlock : Nat

/-- Modelled from the spec: one code-generation step of the absent
`llvm` module.  `emit` appends at the cursor; `declFunction` adds a
function with one (entry) block and moves the cursor there; `newBlock`
appends a block to the cursor's function and moves the cursor to it;
`setCursor` repositions the cursor (only to an existing block — an
inkwell builder can only be positioned at a real basic block). -/
def step (s : GenState) : GenAction → GenState
  | .emit i => { s with module := emitAt s.module s.curFn s.curBlock i }
  | .declFunction n sig =>
      { module := { s.module with
          functions := s.module.functions ++ [⟨n, sig, [[]]⟩] },
        curFn := s.module.functions.length,
        curBlock := 0 }
  | .newBlock =>
      { module := addBlockAt s.module s.curFn,
        curFn := s.curFn,
        curBlock := blocksCount s.module s.curFn }
  | .setCursor fIdx bIdx =>
      if bIdx < blocksCount s.module fIdx then
        { s with curFn := fIdx, curBlock := bIdx }
      else s

/-- Modelled from the spec: the absent `llvm` lowering module — "a
single depth-first traversal of the AST, emitting IR instructions into
basic blocks, managing ... the current function/block cursor" (spec
§2/§4.3) — abstracted as running a sequence of `GenAction`s from the
state `main` prepared. -/
def llvm (s : GenState) (actions : List GenAction) : GenState :=
  actions.foldl step s

/-- The state `main` (`main.rs` lines 136-179) hands to `llvm`: the
module with the `coitusinterruptus : void(i8*)` declaration and the
`main : i32()` function carrying its single `entry` block, and the
builder positioned at that entry block
(`position_at_end(entry_basic_block)`: function index 1, block 0). -/
def initGenState : GenState :=
  ⟨append_basic_block
      (add_function
        (add_function (create_module "main") "coitusinterruptus"
          println_type)
        "main" main_type)
      "main",
   1, 0⟩

/-- The module construction performed by `main` (`main.rs` lines
136-187): prepare `initGenState`, lower the AST (`llvm`), and
unconditionally `build_return(Some(&i32_type().const_zero()))` at
wherever the cursor ended. -/
def mainModule (actions : List GenAction) : Module :=
  let s := llvm initGenState actions
  emitAt s.module s.curFn s.curBlock (.ret 0)

/-- A sample lowering-action sequence: emit into the entry block,
declare a helper function (cursor moves to it) and emit there, then
reposition the cursor back to the entry block of `main` and emit
again. -/
def exampleActions : List GenAction :=
  [.emit (.other 0), .declFunction "helper" ⟨[], .void⟩,
   .emit (.other 1), .setCursor 1 0, .emit (.other 2)]

/-! ## Build-artifact paths (lines 121-125, 205, 233) -/

/-- The build directory (`main.rs` lines 121-125):
`project_dir.join("build").join(if release { "release" } else
{ "debug" })`, as a list of path components. -/
def build_dir (projectDir : String) (release : Bool) : List String :=
  [projectDir, "build", if release then "release" else "debug"]

/-- The object-file path (`main.rs` line 205):
`build_dir.join(format!("{}.redd.it.o", project.config.name))`. -/
def object_path (projectDir projName : String) (release : Bool) :
    List String :=
  build_dir projectDir release ++ [projName ++ ".redd.it.o"]

/-- The linked-executable path (`main.rs` line 233):
`build_dir.join(&project.config.name)`. -/
def output_file (projectDir projName : String) (release : Bool) :
    List String :=
  build_dir projectDir release ++ [projName]

/-! ## The parse stage (spec-modelled ordered-choice grammar) -/

/-- Modelled from the spec: the pest grammar (`grammar.pest`) and the
`parser` module are not under `src/`.  A parse-tree node carries "a
grammar-rule tag, the matched source span, and an ordered sequence of
child nodes" (spec §3); spans are represented by the matched text. -/
inductive PTree where
  | leaf (matched : List Char)
  | node (rule : Nat) (children : List PTree)

/-- Modelled from the spec: grammar expressions supporting "literal
tokens, sequencing, repetition, and nested sub-rules" with
ordered-choice alternatives (spec §4.1). -/
inductive PExpr where
  | lit (tok : List Char)
  | seq (first second : PExpr)
  | choice (first second : PExpr)
  | many (inner : PExpr)
  | ruleRef (idx : Nat)
deriving DecidableEq

/-- Modelled from the spec: ordered-choice recursive matching — "for
each rule, try alternatives in declaration order and commit to the
first that matches the remaining input" (spec §4.1).  `fuel` bounds
recursion depth; a match returns the parse tree plus remaining input. -/
def pmatch (g : List PExpr) : Nat → PExpr → List Char →
    Option (PTree × List Char)
  | 0, _, _ => none
  | _ + 1, .lit tok, input =>
      if tok.isPrefixOf input then some (.leaf tok, input.drop tok.length)
      else none
  | fuel + 1, .seq a b, input =>
      match pmatch g fuel a input with
      | none => none
      | some (t₁, rest) =>
          match pmatch g fuel b rest with
          | none => none
          | some (t₂, rest₂) => some (.node 0 [t₁, t₂], rest₂)
  | fuel + 1, .choice a b, input =>
      match pmatch g fuel a input with
      | some r => some r
      | none => pmatch g fuel b input
  | fuel + 1, .many e, input =>
      match pmatch g fuel e input with
      | none => some (.node 1 [], input)
      | some (t, rest) =>
          match pmatch g fuel (.many e) rest with
          | some (.node k ts, rest₂) => some (.node k (t :: ts), rest₂)
          | _ => some (.node 1 [t], rest)
  | fuel + 1, .ruleRef n, input =>
      match g[n]? with
      | none => none
      | some e =>
          match pmatch g fuel e input with
          | none => none
          | some (t, rest) => some (.node n [t], rest)

/-- `parse_file` (`main.rs` lines 250-255) runs the pest parse of the
whole file against `Rule::Program`; here, matching the grammar's start
rule (rule 0). -/
def parse_program (g : List PExpr) (fuel : Nat) (file : List Char) :
    Option (PTree × List Char) :=
  pmatch g fuel (.ruleRef 0) file

/-! ## Helper lemmas -/

lemma length_updateAt (l : List α) (n : Nat) (g : α → α) :
    (updateAt l n g).length = l.length := by
  induction l generalizing n with
  | nil => rfl
  | cons a rest ih =>
      cases n with
      | zero => rfl
      | succ m => simp [updateAt, ih]

lemma getElem?_updateAt (l : List α) (n m : Nat) (g : α → α) :
    (updateAt l n g)[m]? = if m = n then (l[m]?).map g else l[m]? := by
  induction l generalizing n m with
  | nil => simp [updateAt]
  | cons a rest ih =>
      cases n with
      | zero =>
          cases m with
          | zero => simp [updateAt]
          | succ k => simp [updateAt]
      | succ n₀ =>
          cases m with
          | zero => simp [updateAt]
          | succ k => simp [updateAt, ih]

lemma mem_updateAt {l : List α} {n : Nat} {g : α → α} {x : α}
    (h : x ∈ updateAt l n g) : x ∈ l ∨ ∃ y ∈ l, x = g y := by
  induction l generalizing n with
  | nil => simp [updateAt] at h
  | cons a rest ih =>
      cases n with
      | zero =>
          simp only [updateAt, List.mem_cons] at h
          rcases h with h | h
          · exact Or.inr ⟨a, List.mem_cons_self a rest, h⟩
          · exact Or.inl (List.mem_cons_of_mem a h)
      | succ m =>
          simp only [updateAt, List.mem_cons] at h
          rcases h with h | h
          · exact Or.inl (h ▸ List.mem_cons_self a rest)
          · rcases ih h with h₀ | ⟨y, hy, hxy⟩
            · exact Or.inl (List.mem_cons_of_mem a h₀)
            · exact Or.inr ⟨y, List.mem_cons_of_mem a hy, hxy⟩

lemma filter_length_updateAt (l : List α) (n : Nat) (g : α → α)
    (p : α → Bool) (hp : ∀ a, p (g a) = p a) :
    ((updateAt l n g).filter p).length = (l.filter p).length := by
  induction l generalizing n with
  | nil => rfl
  | cons a rest ih =>
      cases n with
      | zero => cases hpa : p a <;> simp [updateAt, List.filter_cons, hp, hpa]
      | succ m => cases hpa : p a <;> simp [updateAt, List.filter_cons, hpa, ih]

lemma getElem?_append_length (l : List α) (x : α) :
    (l ++ [x])[l.length]? = some x := by
  induction l with
  | nil => rfl
  | cons a rest ih => simp [ih]

/-- Invariant of the lowering state: exactly one function named `main`,
every function named `main` has the entry signature and a nonempty
block list, the function at index 1 is named `main`, and the cursor
points at an existing block. -/
def MainInv (s : GenState) : Prop :=
  ((s.module.functions.filter fun f => f.name == "main").length = 1) ∧
  (∀ f ∈ s.module.functions, f.name = "main" →
      f.sig = main_type ∧ f.blocks ≠ []) ∧
  (∃ f, s.module.functions[1]? = some f ∧ f.name = "main") ∧
  s.curBlock < blocksCount s.module s.curFn

lemma blocksCount_emitAt (m : Module) (fIdx bIdx : Nat) (i : Instr)
    (x : Nat) : blocksCount (emitAt m fIdx bIdx i) x = blocksCount m x := by
  simp only [blocksCount, emitAt, getElem?_updateAt]
  split
  · cases hx : m.functions[x]? <;> simp [length_updateAt]
  · rfl

lemma step_MainInv {s : GenState} (a : GenAction) (hs : MainInv s)
    (ha : ∀ n sig, a = .declFunction n sig → n ≠ "main") :
    MainInv (step s a) := by
  obtain ⟨h1, h2, ⟨fm, hfm, hfmn⟩, h4⟩ := hs
  cases a with
  | emit i =>
      refine ⟨?_, ?_, ?_, ?_⟩
      · have hfl := filter_length_updateAt s.module.functions s.curFn
          (fun f => { f with blocks := updateAt f.blocks s.curBlock fun b => b ++ [i] })
          (fun f => f.name == "main") (fun f => rfl)
        simp only [step, emitAt]
        exact hfl.trans h1
      · intro f hf hname
        simp only [step, emitAt] at hf
        rcases mem_updateAt hf with hf₀ | ⟨y, hy, rfl⟩
        · exact h2 f hf₀ hname
        · obtain ⟨hsig, hbl⟩ := h2 y hy hname
          refine ⟨hsig, ?_⟩
          intro hEq
          apply hbl
          have hlen := length_updateAt y.blocks s.curBlock fun b => b ++ [i]
          rw [show updateAt y.blocks s.curBlock (fun b => b ++ [i]) = [] from hEq] at hlen
          exact List.length_eq_zero.mp hlen.symm
      · simp only [step, emitAt, getElem?_updateAt]
        by_cases hcf : (1 : Nat) = s.curFn
        · rw [if_pos hcf, hfm]
          exact ⟨_, rfl, hfmn⟩
        · rw [if_neg hcf]
          exact ⟨fm, hfm, hfmn⟩
      · show s.curBlock < blocksCount (emitAt s.module s.curFn s.curBlock i) s.curFn
        rw [blocksCount_emitAt]
        exact h4
  | declFunction n sig =>
      have hne : n ≠ "main" := ha n sig rfl
      have hne' : (n == "main") = false := by
        cases hb : n == "main"
        · rfl
        · exact absurd (eq_of_beq hb) hne
      refine ⟨?_, ?_, ?_, ?_⟩
      · simp only [step]
        rw [List.filter_append, List.length_append, h1]
        simp [List.filter_cons, hne']
      · intro f hf hname
        simp only [step, List.mem_append, List.mem_cons,
          List.not_mem_nil, or_false] at hf
        rcases hf with hf₀ | rfl
        · exact h2 f hf₀ hname
        · exact absurd hname hne
      · refine ⟨fm, ?_, hfmn⟩
        simp only [step]
        obtain ⟨hlt, -⟩ := List.getElem?_eq_some.mp hfm
        rw [List.getElem?_append, if_pos hlt]
        exact hfm
      · simp only [step, blocksCount, getElem?_append_length]
        simp
  | newBlock =>
      have h0 : 0 < blocksCount s.module s.curFn :=
        Nat.lt_of_le_of_lt (Nat.zero_le _) h4
      refine ⟨?_, ?_, ?_, ?_⟩
      · have hfl := filter_length_updateAt s.module.functions s.curFn
          (fun f => { f with blocks := f.blocks ++ [[]] })
          (fun f => f.name == "main") (fun f => rfl)
        simp only [step, addBlockAt]
        exact hfl.trans h1
      · intro f hf hname
        simp only [step, addBlockAt] at hf
        rcases mem_updateAt hf with hf₀ | ⟨y, hy, rfl⟩
        · exact h2 f hf₀ hname
        · obtain ⟨hsig, -⟩ := h2 y hy hname
          exact ⟨hsig, by simp⟩
      · simp only [step, addBlockAt, getElem?_updateAt]
        by_cases hcf : (1 : Nat) = s.curFn
        · rw [if_pos hcf, hfm]
          exact ⟨_, rfl, hfmn⟩
        · rw [if_neg hcf]
          exact ⟨fm, hfm, hfmn⟩
      · cases hf0 : s.module.functions[s.curFn]? with
        | none => simp [blocksCount, hf0] at h0
        | some f₀ =>
            simp [step, blocksCount, addBlockAt, getElem?_updateAt, hf0]
  | setCursor fIdx bIdx =>
      simp only [step]
      split
      · next hguard => exact ⟨h1, h2, ⟨fm, hfm, hfmn⟩, hguard⟩
      · exact ⟨h1, h2, ⟨fm, hfm, hfmn⟩, h4⟩

lemma llvm_MainInv : ∀ (actions : List GenAction) (s : GenState),
    (∀ n sig, GenAction.declFunction n sig ∈ actions → n ≠ "main") →
    MainInv s → MainInv (llvm s actions) := by
  intro actions
  induction actions with
  | nil => intro s _ hs; exact hs
  | cons a rest ih =>
      intro s hname hs
      have hstep := step_MainInv a hs
        (fun n sig hEq => hname n sig (hEq ▸ List.mem_cons_self a rest))
      exact ih (step s a)
        (fun n sig h => hname n sig (List.mem_cons_of_mem a h)) hstep

lemma initGenState_module :
    initGenState.module =
      ⟨"main", [⟨"coitusinterruptus", println_type, []⟩,
                ⟨"main", main_type, [[]]⟩]⟩ := by
  simp [initGenState, create_module, add_function, append_basic_block]

lemma initGenState_MainInv : MainInv initGenState := by
  refine ⟨by decide, ?_, ?_, by decide⟩
  · intro f hf hname
    rw [initGenState_module] at hf
    simp only [List.mem_cons, List.not_mem_nil, or_false] at hf
    rcases hf with rfl | rfl
    · exact absurd hname (by decide)
    · exact ⟨rfl, by simp⟩
  · exact ⟨⟨"main", main_type, [[]]⟩, by decide, rfl⟩

/-! ## Claim theorems -/

/-- **C4.** The module declares exactly one entry-point function
(`main`), with fixed result type `i32` and no parameters; the driver
creates its single `entry` block (`initGenState`) and, after lowering,
a return-zero terminator is emitted at the block where the body ended,
so the body always ends in a return of 0.  Hypotheses, both grounded in
the spec: lowering declares no second function named `main` (spec §3:
"the module declares exactly one entry point function"), and lowering
leaves the cursor in the entry function (spec §4.3: branch lowering
repositions the cursor only temporarily and resumes at the merge/exit
block of the same function). -/
theorem entry_function_shape (actions : List GenAction)
    (hname : ∀ n sig, GenAction.declFunction n sig ∈ actions →
      n ≠ "main")
    (hcursor : (llvm initGenState actions).curFn = 1) :
    ((mainModule actions).functions.filter
        fun f => f.name == "main").length = 1 ∧
    (∀ f ∈ (mainModule actions).functions, f.name = "main" →
        f.sig = ⟨[], .i32⟩ ∧ f.blocks ≠ []) ∧
    (∃ f body,
        (mainModule actions).functions[1]? = some f ∧
        f.name = "main" ∧
        f.blocks[(llvm initGenState actions).curBlock]? = some body ∧
        body.getLast? = some (.ret 0)) := by
  obtain ⟨-, -, ⟨fm, hfm, hfmn⟩, h4⟩ :=
    llvm_MainInv actions initGenState hname initGenState_MainInv
  obtain ⟨g1, g2, -, -⟩ :=
    step_MainInv (GenAction.emit (Instr.ret 0))
      (llvm_MainInv actions initGenState hname initGenState_MainInv)
      (fun n sig h => by cases h)
  refine ⟨g1, g2, ?_⟩
  have hcount : blocksCount (llvm initGenState actions).module 1 =
      fm.blocks.length := by simp [blocksCount, hfm]
  rw [hcursor, hcount] at h4
  have hA : (mainModule actions).functions[1]? =
      some { fm with blocks := updateAt fm.blocks (llvm initGenState actions).curBlock fun b => b ++ [Instr.ret 0] } := by
    simp only [mainModule, emitAt]
    rw [getElem?_updateAt, if_pos hcursor.symm, hfm]
    rfl
  have hB : ({ fm with blocks := updateAt fm.blocks (llvm initGenState actions).curBlock fun b => b ++ [Instr.ret 0] } : LFunction).blocks[(llvm initGenState actions).curBlock]? =
      some (fm.blocks.get ⟨(llvm initGenState actions).curBlock, h4⟩ ++ [Instr.ret 0]) := by
    show (updateAt fm.blocks (llvm initGenState actions).curBlock fun b => b ++ [Instr.ret 0])[(llvm initGenState actions).curBlock]? = _
    rw [getElem?_updateAt, if_pos rfl, List.getElem?_eq_getElem h4]
    rfl
  exact ⟨_, _, hA, hfmn, hB, List.getLast?_concat _⟩

/-- Witness for `entry_function_shape`: a concrete lowering that emits
instructions, declares a helper function, and repositions the cursor
back to the entry block of `main`. -/
theorem entry_function_shape_witness :
    ((mainModule exampleActions).functions.filter
        fun f => f.name == "main").length = 1 ∧
    (∀ f ∈ (mainModule exampleActions).functions, f.name = "main" →
        f.sig = ⟨[], .i32⟩ ∧ f.blocks ≠ []) ∧
    (∃ f body,
        (mainModule exampleActions).functions[1]? = some f ∧
        f.name = "main" ∧
        f.blocks[(llvm initGenState exampleActions).curBlock]? =
          some body ∧
        body.getLast? = some (.ret 0)) :=
  entry_function_shape exampleActions
    (by
      intro n sig h
      simp only [exampleActions, List.mem_cons, List.not_mem_nil,
        or_false] at h
      rcases h with h | h | h | h | h
      · exact GenAction.noConfusion h
      · injection h with h1 h2
        subst h1
        decide
      · exact GenAction.noConfusion h
      · exact GenAction.noConfusion h
      · exact GenAction.noConfusion h)
    (by decide)

/-- **C9.** The object file is placed directly under the
build-mode-specific directory (`debug` when the release flag is absent,
`release` when it is set) and the final linked executable, in the same
directory, is named after the project's configured name. -/
theorem artifact_layout (projectDir projName : String) (release : Bool) :
    (build_dir projectDir release).getLast? =
        some (if release then "release" else "debug") ∧
    (object_path projectDir projName release).dropLast =
        build_dir projectDir release ∧
    (object_path projectDir projName release).getLast? =
        some (projName ++ ".redd.it.o") ∧
    (output_file projectDir projName release).dropLast =
        build_dir projectDir release ∧
    (output_file projectDir projName release).getLast? = some projName := by
  refine ⟨?_, ?_, ?_, ?_, ?_⟩ <;>
    simp [build_dir, object_path, output_file]

/-- **C8.** Parsing is a deterministic pure function of the input text:
two runs of the parse stage on the same text produce identical parse
results (trees or failure), and ordered choice commits to the first
alternative that matches, so the result is uniquely determined. -/
theorem parsing_deterministic :
    (∀ (g : List PExpr) (fuel : Nat) (file : List Char)
        (r₁ r₂ : Option (PTree × List Char)),
        parse_program g fuel file = r₁ → parse_program g fuel file = r₂ →
        r₁ = r₂) ∧
    (∀ (g : List PExpr) (fuel : Nat) (a b : PExpr) (input : List Char)
        (r : PTree × List Char),
        pmatch g fuel a input = some r →
        pmatch g (fuel + 1) (.choice a b) input = some r) := by
  constructor
  · intro g fuel file r₁ r₂ h₁ h₂
    rw [← h₁, ← h₂]
  · intro g fuel a b input r h
    simp [pmatch, h]

/-- Witness for `parsing_deterministic`: concrete runs of the modelled
parse stage. -/
theorem parsing_deterministic_witness :
    parse_program [PExpr.lit ['a']] 2 ['a'] =
      parse_program [PExpr.lit ['a']] 2 ['a'] ∧
    pmatch [] 2 (.choice (.lit ['a']) (.lit ['b'])) ['a', 'c'] =
      some (.leaf ['a'], ['c']) :=
  ⟨parsing_deterministic.1 [PExpr.lit ['a']] 2 ['a'] _ _ rfl rfl,
   parsing_deterministic.2 [] 1 (.lit ['a']) (.lit ['b']) ['a', 'c']
     (.leaf ['a'], ['c']) rfl⟩

/-- **C1.** Module verification runs after the full AST is lowered and
before any target-code emission: an object write appears in a trace
only when verification succeeded (and after the verification event,
which itself follows lowering), and when verification runs and fails
the process exits 1 after a diagnostic without writing an object
file. -/
theorem verification_gates_emission : ∀ (release : Bool) (env : Env),
    (emitEv ∈ (cook release env).events →
      env.verifyOk = true ∧
      Event.verifyModule ∈
        (cook release env).events.takeWhile (fun e => !(e == emitEv)) ∧
      Event.lowerAst ∈
        (cook release env).events.takeWhile
          (fun e => !(e == Event.verifyModule))) ∧
    (Event.verifyModule ∈ (cook release env).events →
      env.verifyOk = false →
      (cook release env).termination = .exited 1 true ∧
      (cook release env).objectWritten = false ∧
      emitEv ∉ (cook release env).events) := by
  intro release env
  obtain ⟨pf, cd, cl, cb, cx, rn, cc, rd, bd, ps, vf, tm, wo, sp, lx⟩ := env
  simp only [cook]
  generalize build_libstd (Env.mk pf cd cl cb cx rn cc rd bd ps vf tm wo sp lx) = ls
  revert release pf ls rd bd ps vf tm wo sp
  decide

/-- Witness for `verification_gates_emission`: both implications at
concrete environments. -/
theorem verification_gates_emission_witness :
    (envOk.verifyOk = true ∧
     Event.verifyModule ∈
       (cook false envOk).events.takeWhile (fun e => !(e == emitEv)) ∧
     Event.lowerAst ∈
       (cook false envOk).events.takeWhile
         (fun e => !(e == Event.verifyModule))) ∧
    ((cook false { envOk with verifyOk := false }).termination =
       .exited 1 true ∧
     (cook false { envOk with verifyOk := false }).objectWritten = false ∧
     emitEv ∉ (cook false { envOk with verifyOk := false }).events) :=
  ⟨(verification_gates_emission false envOk).1 (by decide),
   (verification_gates_emission false { envOk with verifyOk := false }).2
     (by decide) (by decide)⟩

/-- **C2 counterexample.** With every step succeeding but the spawned
linker exiting non-zero, the compiler still exits 0 with no diagnostic:
the non-zero external outcome is not treated as fatal (the linker is
spawned and never waited on). -/
theorem linker_exit_ignored_cex :
    ({ envOk with linkerExitZero := false } : Env).linkerExitZero =
      false ∧
    (cook true { envOk with linkerExitZero := false }).termination =
      .exited 0 false := by
  constructor <;> rfl

/-- **C2 (amended).** The driver's observable behaviour is independent
of the exit statuses of the external `cargo build` and of the spawned
linker — neither is ever consulted; only failures to *run* the external
steps are fatal: a standard-library build error exits 1 after a
diagnostic, and a linker spawn failure after the object write ends in a
panic. -/
theorem external_tool_outcomes :
    (∀ (release : Bool) (env : Env) (b₁ b₂ : Bool),
      cook release { env with cargoBuildExitZero := b₁,
                              linkerExitZero := b₂ } = cook release env) ∧
    (∀ (release : Bool) (env : Env), build_libstd env = .fails →
      (cook release env).termination = .exited 1 true) ∧
    (∀ (release : Bool) (env : Env),
      (cook release env).objectWritten = true → env.spawnOk = false →
      (cook release env).termination = .panicked) := by
  refine ⟨?_, ?_, ?_⟩
  · intro release env b₁ b₂
    obtain ⟨pf, cd, cl, cb, cx, rn, cc, rd, bd, ps, vf, tm, wo, sp, lx⟩ := env
    rfl
  · intro release env
    obtain ⟨pf, cd, cl, cb, cx, rn, cc, rd, bd, ps, vf, tm, wo, sp, lx⟩ := env
    simp only [cook]
    generalize build_libstd (Env.mk pf cd cl cb cx rn cc rd bd ps vf tm wo sp lx) = ls
    revert release pf ls rd bd ps vf tm wo sp
    decide
  · intro release env
    obtain ⟨pf, cd, cl, cb, cx, rn, cc, rd, bd, ps, vf, tm, wo, sp, lx⟩ := env
    simp only [cook]
    generalize build_libstd (Env.mk pf cd cl cb cx rn cc rd bd ps vf tm wo sp lx) = ls
    revert release pf ls rd bd ps vf tm wo sp
    decide

/-- Witness for `external_tool_outcomes`: the fatal cases at concrete
environments. -/
theorem external_tool_outcomes_witness :
    (cook false { envOk with createDirOk := false }).termination =
      .exited 1 true ∧
    (cook false { envOk with spawnOk := false }).termination =
      .panicked :=
  ⟨external_tool_outcomes.2.1 false { envOk with createDirOk := false }
     (by decide),
   external_tool_outcomes.2.2 false { envOk with spawnOk := false }
     (by decide) (by decide)⟩

/-- **C3 counterexample.** When the linker fails to spawn, the process
terminates (by panic, with linking never run) with the object file
already written to disk: compilation is not all-or-nothing. -/
theorem object_survives_link_failure_cex :
    (cook false { envOk with spawnOk := false }).objectWritten = true ∧
    (cook false { envOk with spawnOk := false }).termination =
      .panicked := by
  constructor <;> rfl

/-- **C3 (amended).** No object file is written unless every stage up
to and including the object write (parse, lower, verify, target setup,
write) succeeds, so failed early stages leave no artifact; but the
object file is written before linking, so a linker spawn failure
terminates the process with the object file on disk. -/
theorem object_written_iff_stages :
    (∀ (release : Bool) (env : Env),
      (cook release env).objectWritten = true ↔
        (env.projectFound = true ∧ build_libstd env = .succeeds ∧
         env.readOk = true ∧ env.buildDirOk = true ∧ env.parseOk = true ∧
         env.verifyOk = true ∧ env.targetMachineOk = true ∧
         env.writeObjOk = true)) ∧
    (∀ (release : Bool) (env : Env),
      (cook release env).objectWritten = true → env.spawnOk = false →
      (cook release env).termination = .panicked) := by
  refine ⟨?_, ?_⟩ <;>
  · intro release env
    obtain ⟨pf, cd, cl, cb, cx, rn, cc, rd, bd, ps, vf, tm, wo, sp, lx⟩ := env
    simp only [cook]
    generalize build_libstd (Env.mk pf cd cl cb cx rn cc rd bd ps vf tm wo sp lx) = ls
    revert release pf ls rd bd ps vf tm wo sp
    decide

/-- Witness for `object_written_iff_stages`: the spawn-failure case at
a concrete environment. -/
theorem object_written_iff_stages_witness :
    (cook false { envOk with spawnOk := false }).termination =
      .panicked :=
  object_written_iff_stages.2 false { envOk with spawnOk := false }
    (by decide) (by decide)

/-- **C5 counterexample.** In a debug build (release flag absent) the
optimization level passed to target-code emission is `Aggressive`, the
maximum — not unoptimized as the claim requires. -/
theorem debug_emission_aggressive_cex :
    (cook false envOk).events.filter isEmit =
      [.emitObject .Aggressive .PIC .Default] ∧
    OptimizationLevel.Aggressive ≠ OptimizationLevel.None := by
  refine ⟨rfl, by decide⟩

/-- **C5 (amended).** The optimization level passed to target-code
emission is fixed at `Aggressive` regardless of build mode, as are the
relocation mode (`PIC`) and code model (`Default`); the build mode
instead selects the optimization level of the external C-compiler link
step: 0 when the release flag is absent, 3 when set. -/
theorem emission_config_fixed : ∀ (release : Bool) (env : Env),
    ((cook release env).events.filter isEmit = [] ∨
     (cook release env).events.filter isEmit =
       [.emitObject .Aggressive .PIC .Default]) ∧
    ((cook release env).events.filter isSpawn = [] ∨
     (cook release env).events.filter isSpawn =
       [.spawnLinker (if release then 3 else 0)]) := by
  intro release env
  obtain ⟨pf, cd, cl, cb, cx, rn, cc, rd, bd, ps, vf, tm, wo, sp, lx⟩ := env
  simp only [cook]
  generalize build_libstd (Env.mk pf cd cl cb cx rn cc rd bd ps vf tm wo sp lx) = ls
  revert release pf ls rd bd ps vf tm wo sp
  decide

/-- **C6.** Before the AST is lowered, the externally linked
standard-library routine is declared on the module: every trace that
reaches lowering declares `coitusinterruptus` with one `i8*` parameter
and `void` result strictly before the lowering event. -/
theorem extern_declared_before_lowering : ∀ (release : Bool) (env : Env),
    Event.lowerAst ∈ (cook release env).events →
    Event.declareFunction "coitusinterruptus" ⟨[.ptr .i8], .void⟩ ∈
      (cook release env).events.takeWhile (fun e => !(e == Event.lowerAst)) := by
  intro release env
  obtain ⟨pf, cd, cl, cb, cx, rn, cc, rd, bd, ps, vf, tm, wo, sp, lx⟩ := env
  simp only [cook]
  generalize build_libstd (Env.mk pf cd cl cb cx rn cc rd bd ps vf tm wo sp lx) = ls
  revert release pf ls rd bd ps vf tm wo sp
  decide

/-- Witness for `extern_declared_before_lowering` at a concrete
environment. -/
theorem extern_declared_before_lowering_witness :
    Event.declareFunction "coitusinterruptus" ⟨[.ptr .i8], .void⟩ ∈
      (cook false envOk).events.takeWhile (fun e => !(e == Event.lowerAst)) :=
  extern_declared_before_lowering false envOk (by decide)

/-- **C10.** Every build invocation runs the standard-library
clone-or-pull-and-build from the fixed remote URL first — it heads
every nonempty trace, before the source is read or parsed — and when
`build_libstd` returns an error the process exits with status 1 without
ever reading or parsing the source file. -/
theorem libstd_first : ∀ (release : Bool) (env : Env),
    ((cook release env).events ≠ [] →
      (cook release env).events.head? = some (.buildLibstd STDLIB_URL)) ∧
    (build_libstd env = .fails →
      (cook release env).termination = .exited 1 true ∧
      Event.readSource ∉ (cook release env).events ∧
      Event.parseSource ∉ (cook release env).events) := by
  intro release env
  obtain ⟨pf, cd, cl, cb, cx, rn, cc, rd, bd, ps, vf, tm, wo, sp, lx⟩ := env
  simp only [cook]
  generalize build_libstd (Env.mk pf cd cl cb cx rn cc rd bd ps vf tm wo sp lx) = ls
  revert release pf ls rd bd ps vf tm wo sp
  decide

/-- Witness for `libstd_first` at concrete environments. -/
theorem libstd_first_witness :
    (cook false envOk).events.head? = some (.buildLibstd STDLIB_URL) ∧
    ((cook false { envOk with renameOk := false }).termination =
       .exited 1 true ∧
     Event.readSource ∉
       (cook false { envOk with renameOk := false }).events ∧
     Event.parseSource ∉
       (cook false { envOk with renameOk := false }).events) :=
  ⟨(libstd_first false envOk).1 (by decide),
   (libstd_first false { envOk with renameOk := false }).2 (by decide)⟩

end Redditlang
